import Mathlib

/-!
Verification of the WhatsApp session dispatch scheduler.

The embedding models, from the source:
  * `MemStorage` (src/storage.ts): the in-memory session store with
    `createSession`, `updateSessionStatus`, `incrementMessageCount`.
  * `WhatsAppManager` (src/unnamed/part_000, `whatsapp.ts`): the live-session
    table `activeSessions`, `startSession`, `stopSession`, `sendNextMessage`.
  * the HTTP route handlers (`registerRoutes`) for session start/stop.

Effects that live outside the process state are passed in explicitly:
  * `readFileFn : String → Option String` models `fs.readFile` (`none` = the
    read throws);
  * `clientOk : Bool` models whether `createWhatsAppClient` resolves or throws;
  * `destroyFails : Bool` models whether `client.destroy()` throws (the source
    catches and logs this error);
  * `sendOk : Bool` models whether the `await client.sendMessage(...)` call
    (and anything before it inside the `try` block) completes without throwing;
  * `now : Nat` models `new Date()` timestamps; fresh ids (`nanoid()`, timer
    handles, client instances) are drawn from explicit counters.

Timer handles armed by `setInterval` and not yet cleared by `clearInterval`
are tracked in `armedTimers`; acquired (and not destroyed) delivery-capability
instances in `acquiredClients`.

`sendNextMessage` is split in two phases around its `await` points:
`sendNextMessage` itself = lookup (lines 160-164) followed by `finishStep`
(lines 166-202, from the destructured snapshot of the session data).  The
split lets interleavings of an in-flight dispatch step with `stopSession` be
expressed exactly as the event loop can produce them.
-/

namespace WhatsappLoader

/-! ## String helpers (JS `split`, `trim`, `filter(Boolean)` semantics) -/

/-- JS `s.split(sep)` for a one-character separator, on the character list:
`[] → [[]]`, and a separator character closes the current chunk. -/
def splitChar (sep : Char) : List Char → List (List Char)
  | [] => [[]]
  | c :: cs =>
    match splitChar sep cs with
    | [] => if c = sep then [[], []] else [[c]]
    | r :: rs => if c = sep then [] :: r :: rs else (c :: r) :: rs

/-- JS `s.split(sep)` for a one-character separator. -/
def splitOnChar (sep : Char) (s : String) : List String :=
  (splitChar sep s.data).map String.mk

/-- JS `String.prototype.trim`: drop whitespace from both ends. -/
def trimStr (s : String) : String :=
  String.mk (((s.data.dropWhile Char.isWhitespace).reverse.dropWhile
    Char.isWhitespace).reverse)

/-- A string is blank when it trims to the empty string. -/
def isBlank (s : String) : Bool := trimStr s = ""

/-- `session.targets.split(',').map(t => t.trim()).filter(Boolean)`
(src/unnamed/part_000 line 69). -/
def parseTargets (s : String) : List String :=
  ((splitOnChar ',' s).map trimStr).filter (fun t => t ≠ "")

/-- `text.split('\n').filter(Boolean)` (src/unnamed/part_000 lines 81 and 86):
note there is no trimming, only empty lines are dropped. -/
def splitMessageLines (s : String) : List String :=
  (splitOnChar '\n' s).filter (fun l => l ≠ "")

/-! ## Association-list maps (JS `Map` keyed by session id) -/

/-- `Map.prototype.get`. -/
def alGet {α : Type} : List (String × α) → String → Option α
  | [], _ => none
  | (k2, v) :: rest, k => if k2 = k then some v else alGet rest k

/-- `Map.prototype.set`: replace the binding if the key is present, else add. -/
def alSet {α : Type} : List (String × α) → String → α → List (String × α)
  | [], k, v => [(k, v)]
  | (k2, v2) :: rest, k, v =>
    if k2 = k then (k, v) :: rest else (k2, v2) :: alSet rest k v

/-- `Map.prototype.delete`. -/
def alDelete {α : Type} (m : List (String × α)) (k : String) :
    List (String × α) :=
  m.filter (fun p => p.1 ≠ k)

theorem alGet_alSet_self {α : Type} (m : List (String × α)) (k : String)
    (v : α) : alGet (alSet m k v) k = some v := by
  induction m with
  | nil => simp [alSet, alGet]
  | cons p rest ih =>
    by_cases h : p.1 = k
    · simp [alSet, alGet, h]
    · simp [alSet, alGet, h, ih]

theorem alGet_alDelete_self {α : Type} (m : List (String × α)) (k : String) :
    alGet (alDelete m k) k = none := by
  induction m with
  | nil => simp [alDelete, alGet]
  | cons p rest ih =>
    by_cases h : p.1 = k
    · simpa [alDelete, alGet, h] using ih
    · simpa [alDelete, alGet, h] using ih

/-! ## Session store (src/storage.ts) -/

/-- A persisted session record (`WhatsappSession` of `@shared/schema`, as
materialised by `MemStorage.createSession`). -/
structure WhatsappSession where
  id : Nat
  sessionId : String
  phoneNumber : String
  connectionType : String
  phoneId : Option String
  targets : String
  messagePath : String
  messageText : String
  delay : Nat
  messageCount : Nat
  isActive : Bool
  createdAt : Nat
  updatedAt : Nat
  deriving Repr, DecidableEq

/-- The argument of `createSession` (`InsertWhatsappSession`); the start route
passes `isActive: true` in it (src/unnamed/part_000 line 524). -/
structure InsertWhatsappSession where
  sessionId : String
  phoneNumber : String
  connectionType : String
  phoneId : Option String
  targets : String
  messagePath : String
  messageText : String
  delay : Nat
  isActive : Bool
  deriving Repr, DecidableEq

/-- `MemStorage`: the `sessions` map keyed by session id. -/
structure MemStorage where
  sessions : List (String × WhatsappSession)
  deriving Repr, DecidableEq

/-- `MemStorage.createSession` (src/storage.ts lines 62-82).  Note that it
sets `isActive := false` and `messageCount := 0` unconditionally, ignoring the
`isActive` field of its argument; `delay || 5` maps a zero delay to 5. -/
def createSession (now : Nat) (store : MemStorage)
    (d : InsertWhatsappSession) : WhatsappSession × MemStorage :=
  let session : WhatsappSession :=
    { id := store.sessions.length + 1
      sessionId := d.sessionId
      phoneNumber := d.phoneNumber
      connectionType := d.connectionType
      phoneId := match d.phoneId with
        | some p => if p = "" then none else some p
        | none => none
      targets := d.targets
      messagePath := d.messagePath
      messageText := d.messageText
      delay := if d.delay = 0 then 5 else d.delay
      messageCount := 0
      isActive := false
      createdAt := now
      updatedAt := now }
  (session, { sessions := alSet store.sessions d.sessionId session })

/-- `MemStorage.updateSessionStatus` (src/storage.ts lines 88-100). -/
def updateSessionStatus (now : Nat) (store : MemStorage) (sessionId : String)
    (active : Bool) : Option WhatsappSession × MemStorage :=
  match alGet store.sessions sessionId with
  | none => (none, store)
  | some s =>
    let updated := { s with isActive := active, updatedAt := now }
    (some updated, { sessions := alSet store.sessions sessionId updated })

/-- `MemStorage.incrementMessageCount` (src/storage.ts lines 102-115): returns
0 and leaves the map untouched when the id is absent; otherwise bumps the
counter and `updatedAt` and returns the new count. -/
def incrementMessageCount (now : Nat) (store : MemStorage)
    (sessionId : String) : Nat × MemStorage :=
  match alGet store.sessions sessionId with
  | none => (0, store)
  | some s =>
    let newCount := s.messageCount + 1
    let updated := { s with messageCount := newCount, updatedAt := now }
    (newCount, { sessions := alSet store.sessions sessionId updated })

/-! ## Live-session manager (src/unnamed/part_000, `WhatsAppManager`) -/

/-- One entry of `WhatsAppManager.activeSessions` (lines 44-52). -/
structure SessionData where
  client : Nat
  interval : Option Nat
  targets : List String
  messages : List String
  delay : Nat
  messageIndex : Nat
  targetIndex : Nat
  deriving Repr, DecidableEq

/-- The manager's mutable state: the live-session table plus the ambient
resources it manipulates (armed `setInterval` handles, acquired WhatsApp
client instances) and fresh-id counters for both. -/
structure Manager where
  activeSessions : List (String × SessionData)
  armedTimers : List Nat
  nextTimerId : Nat
  acquiredClients : List Nat
  nextClientId : Nat
  deriving Repr, DecidableEq

def emptyManager : Manager :=
  { activeSessions := [], armedTimers := [], nextTimerId := 0,
    acquiredClients := [], nextClientId := 0 }

/-- `WhatsAppManager.stopSession` (lines 126-157): absent id returns `false`
with no state change; otherwise the interval is cleared, `client.destroy()` is
attempted (an error is caught and only logged, leaving the client instance
undestroyed), the entry is removed and `true` is returned. -/
def stopSession (destroyFails : Bool) (mgr : Manager) (sessionId : String) :
    Bool × Manager :=
  match alGet mgr.activeSessions sessionId with
  | none => (false, mgr)
  | some sd =>
    let armed := match sd.interval with
      | some t => mgr.armedTimers.erase t
      | none => mgr.armedTimers
    let clients := if destroyFails then mgr.acquiredClients
      else mgr.acquiredClients.erase sd.client
    (true,
      { mgr with
        armedTimers := armed
        acquiredClients := clients
        activeSessions := alDelete mgr.activeSessions sessionId })

/-- `session.messageText ? split : fs.readFile(session.messagePath)` resolved
to the message list (lines 77-91); `none` means the file read threw and
`startSession` returns `false`. -/
def resolveMessages (readFileFn : String → Option String)
    (s : WhatsappSession) : Option (List String) :=
  if s.messageText ≠ "" then some (splitMessageLines s.messageText)
  else (readFileFn s.messagePath).map splitMessageLines

/-- The stop-first phase of `startSession` (lines 62-64): an already-live
session for the id is stopped before anything else. -/
def preStart (destroyFails : Bool) (mgr : Manager) (sessionId : String) :
    Manager :=
  if (alGet mgr.activeSessions sessionId).isSome
    then (stopSession destroyFails mgr sessionId).2
    else mgr

/-- `WhatsAppManager.startSession` (lines 59-124): stop an existing live
session for the id first; parse targets, resolve messages, failing with no
further effect when either list is empty or the file read throws; acquire the
client (`createWhatsAppClient`, whose failure is caught by the outer `try` and
returns `false` before any timer exists); arm the interval and register the
entry with both cursors at 0. -/
def startSession (destroyFails : Bool) (readFileFn : String → Option String)
    (clientOk : Bool) (mgr : Manager) (s : WhatsappSession) : Bool × Manager :=
  let mgr1 := preStart destroyFails mgr s.sessionId
  let targets := parseTargets s.targets
  if targets.length = 0 then (false, mgr1)
  else
    match resolveMessages readFileFn s with
    | none => (false, mgr1)
    | some messages =>
      if messages.length = 0 then (false, mgr1)
      else if clientOk then
        let clientId := mgr1.nextClientId
        let timerId := mgr1.nextTimerId
        (true,
          { mgr1 with
            acquiredClients := mgr1.acquiredClients ++ [clientId]
            nextClientId := clientId + 1
            armedTimers := mgr1.armedTimers ++ [timerId]
            nextTimerId := timerId + 1
            activeSessions := alSet mgr1.activeSessions s.sessionId
              { client := clientId, interval := some timerId,
                targets := targets, messages := messages, delay := s.delay,
                messageIndex := 0, targetIndex := 0 } })
      else (false, mgr1)

/-- Manager plus store: the whole process state a dispatch step touches. -/
structure SysState where
  mgr : Manager
  store : MemStorage
  deriving Repr, DecidableEq

/-- The tail of `sendNextMessage` (lines 166-202), run from the destructured
snapshot `sd` of the session data taken at lookup time.  `sendOk = false`
means the `try` block threw at or before `await client.sendMessage` (line
180): the `catch` only logs, so nothing changes.  On success the store counter
is incremented and the cursors computed from the snapshot are written back by
`activeSessions.set` unconditionally — with no re-check that the entry is
still present. -/
def finishStep (now : Nat) (sendOk : Bool) (st : SysState)
    (sessionId : String) (sd : SessionData) : SysState :=
  if sendOk then
    let store1 := (incrementMessageCount now st.store sessionId).2
    let nextMessageIndex := (sd.messageIndex + 1) % sd.messages.length
    let nextTargetIndex := if nextMessageIndex = 0
      then (sd.targetIndex + 1) % sd.targets.length else sd.targetIndex
    { mgr := { st.mgr with
        activeSessions := alSet st.mgr.activeSessions sessionId
          { sd with messageIndex := nextMessageIndex,
                    targetIndex := nextTargetIndex } }
      store := store1 }
  else st

/-- `WhatsAppManager.sendNextMessage` (lines 159-203) run to completion with
no interleaving: look up the live entry (absent ⇒ no-op) and run the rest of
the step from the snapshot. -/
def sendNextMessage (now : Nat) (sendOk : Bool) (st : SysState)
    (sessionId : String) : SysState :=
  match alGet st.mgr.activeSessions sessionId with
  | none => st
  | some sd => finishStep now sendOk st sessionId sd

/-- The (target, message) pair a dispatch step fired in state `sd` would read
(lines 170-171). -/
def visitedPair (sd : SessionData) : Option (String × String) :=
  match sd.targets.get? sd.targetIndex, sd.messages.get? sd.messageIndex with
  | some t, some m => some (t, m)
  | _, _ => none

/-- A sequence of complete dispatch steps, one per timer firing, with the
given send outcomes. -/
def runSteps (now : Nat) (st : SysState) (sessionId : String) :
    List Bool → SysState
  | [] => st
  | ok :: rest => runSteps now (sendNextMessage now ok st sessionId)
      sessionId rest

/-! ## Concrete sample states used by closed instances -/

def sampleRecord : WhatsappSession :=
  { id := 1, sessionId := "s", phoneNumber := "1", connectionType := "creds",
    phoneId := none, targets := "a", messagePath := "p",
    messageText := "hi\nbye", delay := 1, messageCount := 0, isActive := false,
    createdAt := 0, updatedAt := 0 }

def sampleStore : MemStorage := { sessions := [("s", sampleRecord)] }

def sampleSD : SessionData :=
  { client := 0, interval := some 0, targets := ["a"],
    messages := ["hi", "bye"], delay := 1, messageIndex := 0, targetIndex := 0 }

def sampleMgr : Manager :=
  { activeSessions := [("s", sampleSD)], armedTimers := [0], nextTimerId := 1,
    acquiredClients := [0], nextClientId := 1 }

def sampleSys : SysState := { mgr := sampleMgr, store := sampleStore }

/-- A configuration whose `targets` parses to the empty list. -/
def sampleEmptyTargets : WhatsappSession :=
  { id := 2, sessionId := "t", phoneNumber := "1", connectionType := "creds",
    phoneId := none, targets := " , ", messagePath := "p",
    messageText := "hi", delay := 1, messageCount := 0, isActive := false,
    createdAt := 0, updatedAt := 0 }

/-! ## Claims about `stopSession` and the store counter -/

/-- Claim C8: stopping a session id with no live session returns the failure
outcome and leaves the manager state (in particular the live-session table)
exactly as it was. -/
theorem stop_not_found (destroyFails : Bool) (mgr : Manager)
    (sessionId : String) (h : alGet mgr.activeSessions sessionId = none) :
    stopSession destroyFails mgr sessionId = (false, mgr) := by
  simp [stopSession, h]

theorem stop_not_found_witness :
    stopSession false emptyManager "s" = (false, emptyManager) :=
  stop_not_found false emptyManager "s" (by decide)

/-- Claim C9: stopping a live session returns success and removes the entry
from the live-session table, for either outcome of the client teardown — the
`client.destroy()` error is caught inside `stopSession` and never reaches the
caller. -/
theorem stop_removes_despite_destroy_error (destroyFails : Bool)
    (mgr : Manager) (sessionId : String) (sd : SessionData)
    (h : alGet mgr.activeSessions sessionId = some sd) :
    (stopSession destroyFails mgr sessionId).1 = true ∧
    alGet (stopSession destroyFails mgr sessionId).2.activeSessions
      sessionId = none := by
  simp [stopSession, h, alGet_alDelete_self]

theorem stop_removes_despite_destroy_error_witness :
    (stopSession true sampleMgr "s").1 = true ∧
    alGet (stopSession true sampleMgr "s").2.activeSessions "s" = none :=
  stop_removes_despite_destroy_error true sampleMgr "s" sampleSD (by decide)

/-- Claim C10: `incrementMessageCount` on an absent id returns 0 and leaves
the store untouched; on a present id it returns the old count plus one and
updates only that record's counter and `updatedAt`. -/
theorem incrementMessageCount_contract (now : Nat) (store : MemStorage)
    (sessionId : String) :
    (alGet store.sessions sessionId = none →
      incrementMessageCount now store sessionId = (0, store)) ∧
    (∀ r, alGet store.sessions sessionId = some r →
      (incrementMessageCount now store sessionId).1 = r.messageCount + 1 ∧
      (alGet (incrementMessageCount now store sessionId).2.sessions
          sessionId).map (fun r2 => (r2.messageCount, r2.updatedAt)) =
        some (r.messageCount + 1, now)) := by
  constructor
  · intro h
    simp [incrementMessageCount, h]
  · intro r h
    simp [incrementMessageCount, h, alGet_alSet_self]

theorem incrementMessageCount_contract_witness :
    incrementMessageCount 7 { sessions := [] } "s" =
      (0, { sessions := [] }) ∧
    ((incrementMessageCount 7 sampleStore "s").1 =
        sampleRecord.messageCount + 1 ∧
      (alGet (incrementMessageCount 7 sampleStore "s").2.sessions "s").map
          (fun r2 => (r2.messageCount, r2.updatedAt)) =
        some (sampleRecord.messageCount + 1, 7)) :=
  ⟨(incrementMessageCount_contract 7 { sessions := [] } "s").1 (by decide),
   (incrementMessageCount_contract 7 sampleStore "s").2 sampleRecord
     (by decide)⟩

/-! ## Dispatch order -/

/-- The pure cursor update a successful dispatch step performs (lines
186-192), on the pair `(targetIndex, messageIndex)`. -/
def stepCursor (T M : Nat) (p : Nat × Nat) : Nat × Nat :=
  let mi := (p.2 + 1) % M
  (if mi = 0 then (p.1 + 1) % T else p.1, mi)

theorem stepCursor_iterate (T M : Nat) :
    ∀ k : Nat, (stepCursor T M)^[k] (0, 0) = ((k / M) % T, k % M) := by
  intro k
  induction k with
  | zero => simp
  | succ k ih =>
    rw [Function.iterate_succ_apply', ih]
    unfold stepCursor
    simp only [Nat.mod_add_mod]
    by_cases hdvd : M ∣ (k + 1)
    · rw [if_pos (Nat.dvd_iff_mod_eq_zero.mp hdvd), Nat.succ_div_of_dvd hdvd]
    · rw [if_neg (fun hz => hdvd (Nat.dvd_iff_mod_eq_zero.mpr hz)),
        Nat.succ_div_of_not_dvd hdvd]

theorem visitedPair_eq_bind (sd : SessionData) :
    visitedPair sd = (sd.targets.get? sd.targetIndex).bind
      (fun t => (sd.messages.get? sd.messageIndex).map (fun m => (t, m))) := by
  unfold visitedPair
  cases sd.targets.get? sd.targetIndex <;>
    cases sd.messages.get? sd.messageIndex <;> rfl

/-- A run of all-successful dispatch steps iterates `stepCursor` on the
cursor pair and leaves the target and message lists of the entry unchanged. -/
theorem runSteps_replicate_true (now : Nat) (sessionId : String) (k : Nat) :
    ∀ (st : SysState) (sd : SessionData),
      alGet st.mgr.activeSessions sessionId = some sd →
      (alGet (runSteps now st sessionId
          (List.replicate k true)).mgr.activeSessions sessionId).map
          (fun sd2 => (sd2.targets, sd2.messages,
            (sd2.targetIndex, sd2.messageIndex))) =
        some (sd.targets, sd.messages,
          (stepCursor sd.targets.length sd.messages.length)^[k]
            (sd.targetIndex, sd.messageIndex)) := by
  induction k with
  | zero =>
    intro st sd h
    simp [runSteps, h]
  | succ k ih =>
    intro st sd h
    have h' : alGet (sendNextMessage now true st
        sessionId).mgr.activeSessions sessionId = some
        { sd with
          messageIndex := (sd.messageIndex + 1) % sd.messages.length
          targetIndex := if (sd.messageIndex + 1) % sd.messages.length = 0
            then (sd.targetIndex + 1) % sd.targets.length
            else sd.targetIndex } := by
      simp [sendNextMessage, finishStep, h, alGet_alSet_self]
    have hrec := ih (sendNextMessage now true st sessionId) _ h'
    rw [List.replicate_succ]
    rw [show runSteps now st sessionId (true :: List.replicate k true) =
        runSteps now (sendNextMessage now true st sessionId) sessionId
          (List.replicate k true) from rfl]
    rw [hrec, Function.iterate_succ_apply]
    rfl

/-- Claim C1 (amended): for a live session with non-empty lists whose cursors
start at (0, 0), provided every send up to step `k` succeeds, the pair
visited at step `k` (0-indexed) is
`(targets[(k div M) mod T], messages[k mod M])`; equivalently each successful
step advances `messageIndex` by 1 mod `M` and advances `targetIndex` mod `T`
exactly when the new `messageIndex` is 0.  (A step whose send fails advances
nothing — see the counterexample to the claim as stated.) -/
theorem dispatchOrder_allSuccess (now k : Nat) (st : SysState)
    (sessionId : String) (sd : SessionData)
    (h : alGet st.mgr.activeSessions sessionId = some sd)
    (h0m : sd.messageIndex = 0) (h0t : sd.targetIndex = 0)
    (hT : sd.targets ≠ []) (hM : sd.messages ≠ []) :
    (alGet (runSteps now st sessionId
        (List.replicate k true)).mgr.activeSessions sessionId).map
        (fun sd2 => (sd2.targetIndex, sd2.messageIndex, visitedPair sd2)) =
      some ((k / sd.messages.length) % sd.targets.length,
        k % sd.messages.length,
        some (sd.targets.get ⟨(k / sd.messages.length) % sd.targets.length,
                Nat.mod_lt _ (List.length_pos.mpr hT)⟩,
              sd.messages.get ⟨k % sd.messages.length,
                Nat.mod_lt _ (List.length_pos.mpr hM)⟩)) := by
  have hrun := runSteps_replicate_true now sessionId k st sd h
  rw [h0m, h0t, stepCursor_iterate sd.targets.length sd.messages.length]
    at hrun
  cases halg : alGet (runSteps now st sessionId
      (List.replicate k true)).mgr.activeSessions sessionId with
  | none =>
    rw [halg] at hrun
    exact absurd hrun (by simp)
  | some sd2 =>
    rw [halg] at hrun
    simp only [Option.map_some', Option.some.injEq, Prod.mk.injEq] at hrun
    obtain ⟨htg, hms, hti, hmi⟩ := hrun
    simp only [Option.map_some', Option.some.injEq, Prod.mk.injEq]
    refine ⟨hti, hmi, ?_⟩
    rw [visitedPair_eq_bind, htg, hms, hti, hmi]
    rw [List.get?_eq_get (Nat.mod_lt _ (List.length_pos.mpr hT)),
      List.get?_eq_get (Nat.mod_lt _ (List.length_pos.mpr hM))]
    rfl

/-- A live session with two targets and two messages, cursors at the start. -/
def sample2SD : SessionData :=
  { client := 0, interval := some 0, targets := ["a", "b"],
    messages := ["hi", "bye"], delay := 1, messageIndex := 0,
    targetIndex := 0 }

def sample2Mgr : Manager :=
  { activeSessions := [("s", sample2SD)], armedTimers := [0],
    nextTimerId := 1, acquiredClients := [0], nextClientId := 1 }

def sample2Sys : SysState := { mgr := sample2Mgr, store := sampleStore }

theorem dispatchOrder_allSuccess_witness :
    (alGet (runSteps 0 sample2Sys "s"
        (List.replicate 2 true)).mgr.activeSessions "s").map
        (fun sd2 => (sd2.targetIndex, sd2.messageIndex, visitedPair sd2)) =
      some (1, 0, some ("b", "hi")) :=
  dispatchOrder_allSuccess 0 2 sample2Sys "s" sample2SD (by decide) rfl rfl
    (by decide) (by decide)

/-- Claim C1 as stated is false on the code: with targets `["a"]` and
messages `["hi", "bye"]`, after one dispatch step whose send failed, the pair
visited at step `k = 1` is still `("a", "hi")`, whereas the claimed formula
demands `("a", messages[1 mod 2]) = ("a", "bye")` — a failed step does not
advance the cursor pair. -/
theorem dispatchOrder_cex :
    (alGet (runSteps 0 sampleSys "s" [false]).mgr.activeSessions "s").map
        visitedPair = some (some ("a", "hi")) ∧
    (["hi", "bye"].get? (1 % 2)).map (fun m => ("a", m)) =
      some ("a", "bye") ∧
    some (some ("a", "hi")) ≠
      some (some (("a" : String), ("bye" : String))) := by
  decide

/-- Claim C2 (amended): a dispatch step whose send attempt fails leaves the
whole state — in particular the cursor pair — unchanged (the `catch` only
logs); only a step whose send succeeds advances `messageIndex` by 1 mod
`len(messages)` and advances `targetIndex` mod `len(targets)` exactly when
the new `messageIndex` is 0, with both lists unchanged. -/
theorem cursor_advance_on_success_only (now : Nat) (st : SysState)
    (sessionId : String) (sd : SessionData)
    (h : alGet st.mgr.activeSessions sessionId = some sd) :
    sendNextMessage now false st sessionId = st ∧
    (alGet (sendNextMessage now true st
        sessionId).mgr.activeSessions sessionId).map
        (fun sd2 => (sd2.messageIndex, sd2.targetIndex, sd2.targets,
          sd2.messages)) =
      some ((sd.messageIndex + 1) % sd.messages.length,
        (if (sd.messageIndex + 1) % sd.messages.length = 0
          then (sd.targetIndex + 1) % sd.targets.length
          else sd.targetIndex),
        sd.targets, sd.messages) := by
  constructor
  · simp [sendNextMessage, finishStep, h]
  · simp [sendNextMessage, finishStep, h, alGet_alSet_self]

theorem cursor_advance_on_success_only_witness :
    sendNextMessage 0 false sampleSys "s" = sampleSys ∧
    (alGet (sendNextMessage 0 true sampleSys "s").mgr.activeSessions "s").map
        (fun sd2 => (sd2.messageIndex, sd2.targetIndex, sd2.targets,
          sd2.messages)) =
      some ((sampleSD.messageIndex + 1) % sampleSD.messages.length,
        (if (sampleSD.messageIndex + 1) % sampleSD.messages.length = 0
          then (sampleSD.targetIndex + 1) % sampleSD.targets.length
          else sampleSD.targetIndex),
        sampleSD.targets, sampleSD.messages) :=
  cursor_advance_on_success_only 0 sampleSys "s" sampleSD (by decide)

/-- Claim C2 as stated is false on the code: after a step whose send fails,
`messageIndex` is still 0, not `(0 + 1) mod 2 = 1` — the cursor pair does not
advance on failure. -/
theorem cursor_advance_cex :
    (alGet (sendNextMessage 0 false sampleSys "s").mgr.activeSessions
        "s").map (fun sd2 => sd2.messageIndex) = some 0 ∧
    (0 : Nat) ≠ (0 + 1) % 2 := by
  decide

/-! ## Stopping versus an in-flight dispatch step -/

/-- Claim C3 (amended): once `stop(sessionId)` has returned success the timer
is cancelled and the entry is gone, so no *new* dispatch step does anything
(its lookup finds nothing); but a dispatch step already in flight at the
moment of cancellation — one that took its snapshot `sd` before `stop` ran —
still increments the store counter after `stop` returned and still writes the
cursor state back with `activeSessions.set`, re-inserting the entry: the
write-back does not re-check presence and is not a no-op. -/
theorem stop_inflight_writeback (now now2 : Nat) (ok destroyFails : Bool)
    (st : SysState) (sessionId : String) (sd : SessionData)
    (r : WhatsappSession)
    (h : alGet st.mgr.activeSessions sessionId = some sd)
    (hr : alGet st.store.sessions sessionId = some r) :
    (stopSession destroyFails st.mgr sessionId).1 = true ∧
    alGet (stopSession destroyFails st.mgr
      sessionId).2.activeSessions sessionId = none ∧
    (sendNextMessage now2 ok
        { mgr := (stopSession destroyFails st.mgr sessionId).2,
          store := st.store } sessionId =
      { mgr := (stopSession destroyFails st.mgr sessionId).2,
        store := st.store }) ∧
    ((alGet (finishStep now true
        { mgr := (stopSession destroyFails st.mgr sessionId).2,
          store := st.store } sessionId sd).store.sessions sessionId).map
        (fun r2 => r2.messageCount) = some (r.messageCount + 1)) ∧
    (alGet (finishStep now true
        { mgr := (stopSession destroyFails st.mgr sessionId).2,
          store := st.store } sessionId sd).mgr.activeSessions
        sessionId).isSome = true := by
  refine ⟨?_, ?_, ?_, ?_, ?_⟩
  · simp [stopSession, h]
  · simp [stopSession, h, alGet_alDelete_self]
  · simp [sendNextMessage, stopSession, h, alGet_alDelete_self]
  · simp [finishStep, incrementMessageCount, hr, alGet_alSet_self]
  · simp [finishStep, alGet_alSet_self]

theorem stop_inflight_writeback_witness :
    (stopSession false sampleSys.mgr "s").1 = true ∧
    alGet (stopSession false sampleSys.mgr "s").2.activeSessions "s" =
      none ∧
    (sendNextMessage 1 true
        { mgr := (stopSession false sampleSys.mgr "s").2,
          store := sampleSys.store } "s" =
      { mgr := (stopSession false sampleSys.mgr "s").2,
        store := sampleSys.store }) ∧
    ((alGet (finishStep 0 true
        { mgr := (stopSession false sampleSys.mgr "s").2,
          store := sampleSys.store } "s" sampleSD).store.sessions "s").map
        (fun r2 => r2.messageCount) =
      some (sampleRecord.messageCount + 1)) ∧
    (alGet (finishStep 0 true
        { mgr := (stopSession false sampleSys.mgr "s").2,
          store := sampleSys.store } "s" sampleSD).mgr.activeSessions
        "s").isSome = true :=
  stop_inflight_writeback 0 1 true false sampleSys "s" sampleSD sampleRecord
    (by decide) (by decide)

/-- Claim C3 as stated is false on the code: with a live session `"s"` whose
persisted count is 0 and an in-flight step holding the snapshot taken before
`stop`, `stop` returns success, yet completing the in-flight step afterwards
increments the counter to 1 and re-inserts an entry into the live-session
table — the write-back (part_000 lines 195-199) never re-checks presence. -/
theorem stop_inflight_cex :
    (stopSession false sampleSys.mgr "s").1 = true ∧
    sampleRecord.messageCount = 0 ∧
    ((alGet (finishStep 0 true
        { mgr := (stopSession false sampleSys.mgr "s").2,
          store := sampleSys.store } "s" sampleSD).store.sessions "s").map
        (fun r2 => r2.messageCount)) = some 1 ∧
    (alGet (finishStep 0 true
        { mgr := (stopSession false sampleSys.mgr "s").2,
          store := sampleSys.store } "s" sampleSD).mgr.activeSessions
        "s").isSome = true := by
  decide

/-! ## Starting with an empty configuration -/

theorem stopSession_nextTimerId (d : Bool) (mgr : Manager) (sid : String) :
    (stopSession d mgr sid).2.nextTimerId = mgr.nextTimerId := by
  unfold stopSession
  cases alGet mgr.activeSessions sid <;> simp

theorem stopSession_nextClientId (d : Bool) (mgr : Manager) (sid : String) :
    (stopSession d mgr sid).2.nextClientId = mgr.nextClientId := by
  unfold stopSession
  cases alGet mgr.activeSessions sid <;> simp

theorem preStart_nextTimerId (d : Bool) (mgr : Manager) (sid : String) :
    (preStart d mgr sid).nextTimerId = mgr.nextTimerId := by
  unfold preStart
  split
  · exact stopSession_nextTimerId d mgr sid
  · rfl

theorem preStart_nextClientId (d : Bool) (mgr : Manager) (sid : String) :
    (preStart d mgr sid).nextClientId = mgr.nextClientId := by
  unfold preStart
  split
  · exact stopSession_nextClientId d mgr sid
  · rfl

theorem alGet_preStart_self (d : Bool) (mgr : Manager) (sid : String) :
    alGet (preStart d mgr sid).activeSessions sid =
      if (alGet mgr.activeSessions sid).isSome then none
      else alGet mgr.activeSessions sid := by
  unfold preStart
  cases h : alGet mgr.activeSessions sid with
  | none => simp [h]
  | some sd => simp [stopSession, h, alGet_alDelete_self]

/-- When parsing or resolution yields an empty list, `startSession` fails and
only the stop-first phase has run. -/
theorem startSession_empty_eq (d clientOk : Bool)
    (rf : String → Option String) (mgr : Manager) (s : WhatsappSession)
    (h : parseTargets s.targets = [] ∨ resolveMessages rf s = some []) :
    startSession d rf clientOk mgr s = (false, preStart d mgr s.sessionId) := by
  rcases h with h | h
  · simp [startSession, h]
  · by_cases ht : (parseTargets s.targets).length = 0
    · simp [startSession, ht]
    · simp [startSession, ht, h]

/-- Claim C5 (amended): for every configuration whose targets yield no
non-blank entry after parsing, or whose resolved messages yield no non-empty
line (the source filters message lines only with `filter(Boolean)`, so a
whitespace-only line counts as a message — see the counterexample), start
fails and leaves no state behind for that id: no live session is registered,
no timer is armed (`nextTimerId` untouched: `setInterval` was never called)
and no Delivery Capability instance is acquired (`nextClientId` untouched). -/
theorem start_empty_config_no_effects (d clientOk : Bool)
    (rf : String → Option String) (mgr : Manager) (s : WhatsappSession)
    (h : parseTargets s.targets = [] ∨ resolveMessages rf s = some []) :
    (startSession d rf clientOk mgr s).1 = false ∧
    alGet (startSession d rf clientOk mgr s).2.activeSessions s.sessionId =
      none ∧
    (startSession d rf clientOk mgr s).2.nextTimerId = mgr.nextTimerId ∧
    (startSession d rf clientOk mgr s).2.nextClientId = mgr.nextClientId := by
  rw [startSession_empty_eq d clientOk rf mgr s h]
  refine ⟨rfl, ?_, preStart_nextTimerId d mgr s.sessionId,
    preStart_nextClientId d mgr s.sessionId⟩
  rw [alGet_preStart_self]
  cases halg : alGet mgr.activeSessions s.sessionId <;> simp [halg]

theorem start_empty_config_no_effects_witness :
    (startSession false (fun _ => none) true sampleMgr sampleEmptyTargets).1 =
      false ∧
    alGet (startSession false (fun _ => none) true sampleMgr
      sampleEmptyTargets).2.activeSessions
      sampleEmptyTargets.sessionId = none ∧
    (startSession false (fun _ => none) true sampleMgr
      sampleEmptyTargets).2.nextTimerId = sampleMgr.nextTimerId ∧
    (startSession false (fun _ => none) true sampleMgr
      sampleEmptyTargets).2.nextClientId = sampleMgr.nextClientId :=
  start_empty_config_no_effects false true (fun _ => none) sampleMgr
    sampleEmptyTargets (Or.inl (by decide))

/-- A configuration whose message text is a single whitespace-only line. -/
def blankMsgSession : WhatsappSession :=
  { id := 1, sessionId := "s", phoneNumber := "1", connectionType := "creds",
    phoneId := none, targets := "a", messagePath := "p", messageText := " ",
    delay := 1, messageCount := 0, isActive := false, createdAt := 0,
    updatedAt := 0 }

/-- Claim C5 as stated is false on the code: with `messageText = " "` the
resolved message list is `[" "]`, every line of which is blank (trims to
empty), so the claim demands that start fail with no state — yet
`startSession` succeeds, registers a live session and arms a timer, because
the source filters message lines only for emptiness, without trimming
(part_000 line 81), unlike targets (line 69). -/
theorem start_blank_messages_cex :
    resolveMessages (fun _ => none) blankMsgSession = some [" "] ∧
    ([" "] : List String).all isBlank = true ∧
    (startSession false (fun _ => none) true emptyManager
      blankMsgSession).1 = true ∧
    (alGet (startSession false (fun _ => none) true emptyManager
      blankMsgSession).2.activeSessions "s").isSome = true ∧
    (startSession false (fun _ => none) true emptyManager
      blankMsgSession).2.armedTimers ≠ [] := by
  decide

/-! ## Cursor bounds invariant -/

/-- The Live Session State invariant: both cursors in range. -/
def cursorInv (sd : SessionData) : Prop :=
  sd.messageIndex < sd.messages.length ∧ sd.targetIndex < sd.targets.length

instance (sd : SessionData) : Decidable (cursorInv sd) := by
  unfold cursorInv
  infer_instance

/-- The success branch of `startSession`, spelled out. -/
theorem startSession_success (d : Bool) (rf : String → Option String)
    (mgr : Manager) (s : WhatsappSession) (msgs : List String)
    (ht : parseTargets s.targets ≠ []) (hm : resolveMessages rf s = some msgs)
    (hm' : msgs ≠ []) :
    startSession d rf true mgr s =
      (true,
        { preStart d mgr s.sessionId with
          acquiredClients := (preStart d mgr s.sessionId).acquiredClients ++
            [(preStart d mgr s.sessionId).nextClientId]
          nextClientId := (preStart d mgr s.sessionId).nextClientId + 1
          armedTimers := (preStart d mgr s.sessionId).armedTimers ++
            [(preStart d mgr s.sessionId).nextTimerId]
          nextTimerId := (preStart d mgr s.sessionId).nextTimerId + 1
          activeSessions := alSet (preStart d mgr s.sessionId).activeSessions
            s.sessionId
            { client := (preStart d mgr s.sessionId).nextClientId,
              interval := some (preStart d mgr s.sessionId).nextTimerId,
              targets := parseTargets s.targets, messages := msgs,
              delay := s.delay, messageIndex := 0, targetIndex := 0 } }) := by
  have ht' : ¬ (parseTargets s.targets).length = 0 := by
    simpa [List.length_eq_zero] using ht
  have hm'' : ¬ msgs.length = 0 := by
    simpa [List.length_eq_zero] using hm'
  simp [startSession, ht', hm, hm'']

/-- Claim C7: a successful start registers the entry with both cursors at 0,
in range of the (non-empty) frozen lists; and every dispatch step — whether
its send succeeds or fails — keeps the target and message lists of the entry
unchanged and keeps both cursors in range. -/
theorem cursor_bounds_invariant (now : Nat) (ok d : Bool)
    (rf : String → Option String) :
    (∀ (mgr : Manager) (s : WhatsappSession) (msgs : List String),
      parseTargets s.targets ≠ [] → resolveMessages rf s = some msgs →
      msgs ≠ [] →
      (alGet (startSession d rf true mgr s).2.activeSessions
          s.sessionId).map
          (fun sd => (sd.messageIndex, sd.targetIndex,
            decide (cursorInv sd))) = some (0, 0, true)) ∧
    (∀ (st : SysState) (sid : String) (sd : SessionData),
      alGet st.mgr.activeSessions sid = some sd → cursorInv sd →
      (alGet (sendNextMessage now ok st sid).mgr.activeSessions sid).map
          (fun sd2 => (sd2.targets, sd2.messages,
            decide (cursorInv sd2))) =
        some (sd.targets, sd.messages, true)) := by
  constructor
  · intro mgr s msgs ht hm hm'
    rw [startSession_success d rf mgr s msgs ht hm hm']
    simp [alGet_alSet_self, cursorInv, List.length_pos.mpr ht,
      List.length_pos.mpr hm']
  · intro st sid sd h hinv
    have hM : 0 < sd.messages.length :=
      lt_of_le_of_lt (Nat.zero_le _) hinv.1
    have hT : 0 < sd.targets.length :=
      lt_of_le_of_lt (Nat.zero_le _) hinv.2
    cases ok with
    | false =>
      simp only [sendNextMessage, finishStep, h, if_neg (by simp : ¬ False)]
      simp [h, hinv]
    | true =>
      simp only [sendNextMessage, finishStep, h]
      simp [alGet_alSet_self, cursorInv, Nat.mod_lt _ hM]
      split
      · exact Nat.mod_lt _ hT
      · exact hinv.2

theorem cursor_bounds_invariant_witness :
    ((alGet (startSession false (fun _ => none) true emptyManager
        sampleRecord).2.activeSessions sampleRecord.sessionId).map
        (fun sd => (sd.messageIndex, sd.targetIndex,
          decide (cursorInv sd))) = some (0, 0, true)) ∧
    ((alGet (sendNextMessage 0 true sampleSys "s").mgr.activeSessions
        "s").map (fun sd2 => (sd2.targets, sd2.messages,
          decide (cursorInv sd2))) =
      some (sampleSD.targets, sampleSD.messages, true)) :=
  ⟨(cursor_bounds_invariant 0 true false (fun _ => none)).1 emptyManager
      sampleRecord ["hi", "bye"] (by decide) (by decide) (by decide),
   (cursor_bounds_invariant 0 true false (fun _ => none)).2 sampleSys "s"
      sampleSD (by decide) (by decide)⟩

/-! ## At most one live timer per session id -/

/-- Well-formedness of the ambient timer bookkeeping: armed timer handles are
distinct and below the fresh counter. -/
def ManagerWF (m : Manager) : Prop :=
  m.armedTimers.Nodup ∧ ∀ t ∈ m.armedTimers, t < m.nextTimerId

theorem stopSession_eq_of_none (d : Bool) (mgr : Manager) (sid : String)
    (h : alGet mgr.activeSessions sid = none) :
    stopSession d mgr sid = (false, mgr) := by
  simp [stopSession, h]

theorem stopSession_armedTimers_of_interval (d : Bool) (mgr : Manager)
    (sid : String) (sd : SessionData) (t : Nat)
    (h : alGet mgr.activeSessions sid = some sd)
    (hi : sd.interval = some t) :
    (stopSession d mgr sid).2.armedTimers = mgr.armedTimers.erase t := by
  simp [stopSession, h, hi]

theorem stopSession_armedTimers_of_no_interval (d : Bool) (mgr : Manager)
    (sid : String) (sd : SessionData)
    (h : alGet mgr.activeSessions sid = some sd)
    (hi : sd.interval = none) :
    (stopSession d mgr sid).2.armedTimers = mgr.armedTimers := by
  simp [stopSession, h, hi]

theorem stopSession_WF (d : Bool) (mgr : Manager) (sid : String)
    (hwf : ManagerWF mgr) : ManagerWF (stopSession d mgr sid).2 := by
  obtain ⟨hnd, hbd⟩ := hwf
  cases h : alGet mgr.activeSessions sid with
  | none =>
    rw [stopSession_eq_of_none d mgr sid h]
    exact ⟨hnd, hbd⟩
  | some sd =>
    cases hi : sd.interval with
    | none =>
      refine ⟨?_, ?_⟩
      · rw [stopSession_armedTimers_of_no_interval d mgr sid sd h hi]
        exact hnd
      · intro x hx
        rw [stopSession_armedTimers_of_no_interval d mgr sid sd h hi] at hx
        rw [stopSession_nextTimerId]
        exact hbd x hx
    | some t =>
      refine ⟨?_, ?_⟩
      · rw [stopSession_armedTimers_of_interval d mgr sid sd t h hi]
        exact hnd.erase t
      · intro x hx
        rw [stopSession_armedTimers_of_interval d mgr sid sd t h hi] at hx
        rw [stopSession_nextTimerId]
        exact hbd x (List.mem_of_mem_erase hx)

theorem preStart_WF (d : Bool) (mgr : Manager) (sid : String)
    (hwf : ManagerWF mgr) : ManagerWF (preStart d mgr sid) := by
  unfold preStart
  split
  · exact stopSession_WF d mgr sid hwf
  · exact hwf

theorem preStart_of_some (d : Bool) (mgr : Manager) (sid : String)
    (sd : SessionData) (h : alGet mgr.activeSessions sid = some sd) :
    preStart d mgr sid = (stopSession d mgr sid).2 := by
  simp [preStart, h]

theorem startSession_WF (d : Bool) (rf : String → Option String)
    (mgr : Manager) (s : WhatsappSession) (msgs : List String)
    (ht : parseTargets s.targets ≠ []) (hm : resolveMessages rf s = some msgs)
    (hm' : msgs ≠ []) (hwf : ManagerWF mgr) :
    ManagerWF (startSession d rf true mgr s).2 := by
  obtain ⟨hnd, hbd⟩ := preStart_WF d mgr s.sessionId hwf
  rw [startSession_success d rf mgr s msgs ht hm hm']
  refine ⟨?_, ?_⟩
  · rw [List.nodup_append]
    exact ⟨hnd, List.nodup_singleton _, by
      simp only [List.disjoint_singleton]
      exact fun hx => absurd (hbd _ hx) (lt_irrefl _)⟩
  · intro t htm
    rcases List.mem_append.mp htm with hx | hx
    · exact Nat.lt_succ_of_lt (hbd t hx)
    · rw [List.mem_singleton.mp hx]
      exact Nat.lt_succ_self _

/-- Claim C6: starting a session id that is already live stops and removes
the existing live session first, so after two successful `start` calls with
the same id exactly one live timer exists for that id: the second call's
timer (handle `mgr.nextTimerId + 1`) is the entry's interval and is armed,
while the first call's timer (handle `mgr.nextTimerId`) has been cleared. -/
theorem start_twice_single_timer (d1 d2 : Bool)
    (rf : String → Option String) (mgr : Manager) (s : WhatsappSession)
    (msgs : List String) (hwf : ManagerWF mgr)
    (ht : parseTargets s.targets ≠ []) (hm : resolveMessages rf s = some msgs)
    (hm' : msgs ≠ []) :
    (startSession d1 rf true mgr s).1 = true ∧
    (startSession d2 rf true (startSession d1 rf true mgr s).2 s).1 = true ∧
    ((alGet (startSession d1 rf true mgr s).2.activeSessions
        s.sessionId).map (fun sd => sd.interval) =
      some (some mgr.nextTimerId)) ∧
    mgr.nextTimerId ∈ (startSession d1 rf true mgr s).2.armedTimers ∧
    ((alGet (startSession d2 rf true (startSession d1 rf true mgr
        s).2 s).2.activeSessions s.sessionId).map (fun sd => sd.interval) =
      some (some (mgr.nextTimerId + 1))) ∧
    (mgr.nextTimerId + 1) ∈
      (startSession d2 rf true (startSession d1 rf true mgr
        s).2 s).2.armedTimers ∧
    mgr.nextTimerId ∉
      (startSession d2 rf true (startSession d1 rf true mgr
        s).2 s).2.armedTimers := by
  have hwf1 : ManagerWF (startSession d1 rf true mgr s).2 :=
    startSession_WF d1 rf mgr s msgs ht hm hm' hwf
  have e1 := startSession_success d1 rf mgr s msgs ht hm hm'
  have hpT := preStart_nextTimerId d1 mgr s.sessionId
  -- components of the first start
  have h1t : (startSession d1 rf true mgr s).1 = true := by rw [e1]
  have hA1 : alGet (startSession d1 rf true mgr s).2.activeSessions
      s.sessionId = some
      { client := (preStart d1 mgr s.sessionId).nextClientId,
        interval := some mgr.nextTimerId,
        targets := parseTargets s.targets, messages := msgs,
        delay := s.delay, messageIndex := 0, targetIndex := 0 } := by
    rw [e1, ← hpT]
    exact alGet_alSet_self _ _ _
  have hT1mem : mgr.nextTimerId ∈
      (startSession d1 rf true mgr s).2.armedTimers := by
    rw [e1, ← hpT]
    exact List.mem_append_right _ (List.mem_singleton.mpr rfl)
  have hnext1 : (startSession d1 rf true mgr s).2.nextTimerId =
      mgr.nextTimerId + 1 := by
    rw [e1, ← hpT]
  -- the second start's stop-first phase erases the first timer
  have e2 := startSession_success d2 rf (startSession d1 rf true mgr s).2 s
    msgs ht hm hm'
  have hpre2 : preStart d2 (startSession d1 rf true mgr s).2 s.sessionId =
      (stopSession d2 (startSession d1 rf true mgr s).2 s.sessionId).2 :=
    preStart_of_some _ _ _ _ hA1
  have hstop2 : (stopSession d2 (startSession d1 rf true mgr
      s).2 s.sessionId).2.armedTimers =
      (startSession d1 rf true mgr s).2.armedTimers.erase
        mgr.nextTimerId := by
    simp [stopSession, hA1]
  have hstop2next : (stopSession d2 (startSession d1 rf true mgr
      s).2 s.sessionId).2.nextTimerId = mgr.nextTimerId + 1 := by
    rw [stopSession_nextTimerId, hnext1]
  refine ⟨h1t, by rw [e2], ?_, hT1mem, ?_, ?_, ?_⟩
  · rw [hA1]
    rfl
  · rw [e2, hpre2, hstop2next]
    rw [alGet_alSet_self]
    rfl
  · rw [e2]
    simp only [hpre2, hstop2next]
    exact List.mem_append_right _ (List.mem_singleton.mpr rfl)
  · rw [e2]
    simp only [hpre2, hstop2next, hstop2, List.mem_append]
    rintro (hx | hx)
    · exact (hwf1.1.mem_erase_iff.mp hx).1 rfl
    · exact absurd (List.mem_singleton.mp hx) (Nat.ne_of_lt
        (Nat.lt_succ_self _))

theorem start_twice_single_timer_witness :
    (startSession false (fun _ => none) true emptyManager sampleRecord).1 =
      true ∧
    (startSession false (fun _ => none) true
      (startSession false (fun _ => none) true emptyManager
        sampleRecord).2 sampleRecord).1 = true ∧
    ((alGet (startSession false (fun _ => none) true emptyManager
        sampleRecord).2.activeSessions sampleRecord.sessionId).map
        (fun sd => sd.interval) = some (some emptyManager.nextTimerId)) ∧
    emptyManager.nextTimerId ∈
      (startSession false (fun _ => none) true emptyManager
        sampleRecord).2.armedTimers ∧
    ((alGet (startSession false (fun _ => none) true
        (startSession false (fun _ => none) true emptyManager
          sampleRecord).2 sampleRecord).2.activeSessions
        sampleRecord.sessionId).map (fun sd => sd.interval) =
      some (some (emptyManager.nextTimerId + 1))) ∧
    (emptyManager.nextTimerId + 1) ∈
      (startSession false (fun _ => none) true
        (startSession false (fun _ => none) true emptyManager
          sampleRecord).2 sampleRecord).2.armedTimers ∧
    emptyManager.nextTimerId ∉
      (startSession false (fun _ => none) true
        (startSession false (fun _ => none) true emptyManager
          sampleRecord).2 sampleRecord).2.armedTimers :=
  start_twice_single_timer false false (fun _ => none) emptyManager
    sampleRecord ["hi", "bye"] ⟨List.nodup_nil, by simp [emptyManager]⟩
    (by decide) (by decide) (by decide)

/-! ## HTTP routes (src/unnamed/part_000, `registerRoutes`) -/

/-- The body of `POST /api/whatsapp/session/start` before validation
(lines 490-498). -/
structure StartRequest where
  phoneNumber : String
  phoneId : Option String
  targets : String
  messagePath : String
  messageText : Option String
  delay : Option Nat
  connectionType : String
  deriving Repr, DecidableEq

/-- The zod schema check of the start route (lines 490-507): non-empty
`phoneNumber`, `targets`, `messagePath`; `delay ≥ 1` when given (default 10);
`connectionType` one of the two variants. -/
def validStartRequest (r : StartRequest) : Bool :=
  decide (1 ≤ r.phoneNumber.length) && decide (1 ≤ r.targets.length) &&
  decide (1 ≤ r.messagePath.length) &&
  (match r.delay with
    | some d0 => decide (1 ≤ d0)
    | none => true) &&
  (r.connectionType == "creds" || r.connectionType == "phoneId")

/-- `POST /api/whatsapp/session/start` (lines 488-550): validate, create the
persisted record (passing `isActive: true`, which `createSession` ignores),
start the manager session; on failure set the stored flag to false and answer
500; on success answer 200 *without updating the stored flag*. -/
def startRoute (now : Nat) (freshId : String)
    (readFileFn : String → Option String) (destroyFails clientOk : Bool)
    (st : SysState) (req : StartRequest) : Nat × SysState :=
  if validStartRequest req then
    let d : InsertWhatsappSession :=
      { sessionId := freshId
        phoneNumber := req.phoneNumber
        connectionType := req.connectionType
        phoneId := req.phoneId
        targets := req.targets
        messagePath := req.messagePath
        messageText := match req.messageText with
          | some t => t
          | none => ""
        delay := match req.delay with
          | some d0 => d0
          | none => 10
        isActive := true }
    let created := createSession now st.store d
    let res := startSession destroyFails readFileFn clientOk st.mgr created.1
    if res.1 then (200, { mgr := res.2, store := created.2 })
    else
      let store2 := (updateSessionStatus now created.2 freshId false).2
      (500, { mgr := res.2, store := store2 })
  else (400, st)

/-- `POST /api/whatsapp/session/stop` (lines 553-598): missing id ⇒ 400; id
unknown to the store ⇒ 404; manager stop failure ⇒ 500; otherwise the stored
`isActive` flag is set to false and the route answers 200. -/
def stopRoute (now : Nat) (destroyFails : Bool) (st : SysState)
    (sessionId : String) : Nat × SysState :=
  if sessionId = "" then (400, st)
  else
    match alGet st.store.sessions sessionId with
    | none => (404, st)
    | some _ =>
      let res := stopSession destroyFails st.mgr sessionId
      if res.1 then
        let store2 := (updateSessionStatus now st.store sessionId false).2
        (200, { mgr := res.2, store := store2 })
      else (500, { mgr := res.2, store := st.store })

/-- A valid start request that succeeds end to end. -/
def sampleReq : StartRequest :=
  { phoneNumber := "1", phoneId := none, targets := "123",
    messagePath := "m", messageText := some "hi", delay := some 5,
    connectionType := "creds" }

def emptySys : SysState := { mgr := emptyManager, store := { sessions := [] } }

/-- Claim C4 fails on the code (code bug): a successful start leaves the
persisted record with `isActive = false` while a live timer exists.  The
start route passes `isActive: true` to `createSession` (line 524), but
`MemStorage.createSession` hardcodes `isActive: false` (storage.ts line 75)
and the route's success path never calls `updateSessionStatus`, so the
claimed invariant "`isActive` is true exactly when a live timer exists" is
violated on every successful start: here the route answers 200, the entry
for `"s1"` holds armed timer handle 0, yet the stored record says
`isActive = false`. -/
theorem isActive_stale_after_start :
    (startRoute 0 "s1" (fun _ => none) false true emptySys sampleReq).1 =
      200 ∧
    ((alGet (startRoute 0 "s1" (fun _ => none) false true emptySys
        sampleReq).2.mgr.activeSessions "s1").map (fun sd => sd.interval)) =
      some (some 0) ∧
    (0 : Nat) ∈ (startRoute 0 "s1" (fun _ => none) false true emptySys
      sampleReq).2.mgr.armedTimers ∧
    ((alGet (startRoute 0 "s1" (fun _ => none) false true emptySys
        sampleReq).2.store.sessions "s1").map (fun r => r.isActive)) =
      some false := by
  decide

end WhatsappLoader
